import Mathlib

/-!
# gcp-to-discord: verification of the notification relay

A shallow embedding of `function.go` (package `function`): the pure transform
`toDiscord` and the HTTP handler `F`.

* Go structs are Lean structures with the same field names.
* `int64` / `int` values are `Int`.
* Ambient process state that the Go code reads (the local time zone, the two
  environment variables, the behaviour of the network) is passed explicitly.
* The handler's effects (reading the request body, calls of `http.Post` and
  the requests each call puts on the wire) are returned as part of its
  result.
* `http.Post` is embedded after package `net/http`: it goes through
  `http.DefaultClient`, which follows 301, 302, 303, 307 and 308 redirects
  under the default policy of at most 10 requests.
* Log output (`log.Printf`) is not part of the model.
-/

set_option maxRecDepth 100000

namespace GcpToDiscord

/-! ## Data model (function.go, lines 13-53) -/

def colorGreen : Int := 3066993

def colorRed : Int := 15158332

def colorGrey : Int := 9807270

structure Incident where
  IncidentID : String
  ResourceID : String
  ResourceName : String
  State : String
  StartedAt : Int
  EndedAt : Int
  PolicyName : String
  ConditionName : String
  URL : String
  Summary : String
deriving DecidableEq, Repr

structure Notification where
  Incident : Incident
  Version : String
deriving DecidableEq, Repr

structure Field where
  Name : String
  Value : String
  Inline : Bool
deriving DecidableEq, Repr

structure Embed where
  Title : String
  URL : String
  Description : String
  Color : Int
  Fields : List Field
deriving DecidableEq, Repr

structure DiscordWebhook where
  Embeds : List Embed
deriving DecidableEq, Repr

/-! ## Rendering of `time.Unix(sec, 0).String()`

`toDiscord` renders timestamps with the Go standard library. The rendering is
embedded here after package `time`: `Time.String` formats with the layout
`2006-01-02 15:04:05.999999999 -0700 MST` in the process-wide local
`Location`. The nanosecond part of `time.Unix(sec, 0)` is zero, so the
fractional-second element of the layout prints nothing. The date arithmetic
follows `absDate` and `absClock` of Go 1.22. -/

/-- Time zone rules of a Go `*time.Location`: for an instant given in Unix
seconds, the zone abbreviation and the offset in seconds east of UTC. -/
structure Location where
  lookup : Int → String × Int

/-- The `time.UTC` location. -/
def Location.utc : Location := ⟨fun _ => ("UTC", 0)⟩

def secondsPerDay : Nat := 86400

def daysPer400Years : Nat := 146097

def daysPer100Years : Nat := 36524

def daysPer4Years : Nat := 1461

/-- The year of absolute second zero in package `time`. -/
def absoluteZeroYear : Int := -292277022399

/-- The constant `unixToInternal + internalToAbsolute` of package `time`. -/
def unixToAbsolute : Int := 9223372028715321600

/-- Cumulative days before each month in a non-leap year (`time.daysBefore`). -/
def daysBefore : List Nat := [0, 31, 59, 90, 120, 151, 181, 212, 243, 273, 304, 334, 365]

def isLeap (year : Int) : Bool :=
  decide (year.tmod 4 = 0) && (decide (year.tmod 100 ≠ 0) || decide (year.tmod 400 = 0))

/-- Go `time.appendInt`: appends the decimal form of `x`, zero-padded to
`width` digits, preceded by a minus sign when `x` is negative. -/
def appendInt (b : String) (x : Int) (width : Nat) : String :=
  let digits := Nat.repr x.natAbs
  let padded := String.mk (List.replicate (width - digits.length) '0') ++ digits
  if x < 0 then b ++ "-" ++ padded else b ++ padded

/-- Go `time.absDate` with `full = true`: year, month (1-12) and day of month
of an absolute time in seconds (a `uint64`). -/
def absDate (abs : Nat) : Int × Nat × Nat :=
  let d := abs / secondsPerDay
  -- Account for 400 year cycles.
  let n := d / daysPer400Years
  let y := 400 * n
  let d := d - daysPer400Years * n
  -- Cut off 100-year cycles.
  let n := d / daysPer100Years
  let n := n - (n >>> 2)
  let y := y + 100 * n
  let d := d - daysPer100Years * n
  -- Cut off 4-year cycles.
  let n := d / daysPer4Years
  let y := y + 4 * n
  let d := d - daysPer4Years * n
  -- Cut off years within a 4-year cycle.
  let n := d / 365
  let n := n - (n >>> 2)
  let y := y + n
  let d := d - 365 * n
  let year : Int := (y : Int) + absoluteZeroYear
  let leap := isLeap year
  if leap && decide (d = 31 + 29 - 1) then
    (year, 2, 29)
  else
    let day := if leap && decide (d > 31 + 29 - 1) then d - 1 else d
    -- Estimate the month assuming 31-day months; too low by at most one.
    let month := day / 31
    let stop := daysBefore.getD (month + 1) 0
    if day ≥ stop then
      (year, month + 1 + 1, day - stop + 1)
    else
      (year, month + 1, day - daysBefore.getD month 0 + 1)

/-- Go `time.absClock`: hour, minute and second within the day. -/
def absClock (abs : Nat) : Nat × Nat × Nat :=
  let sec := abs % secondsPerDay
  let hour := sec / 3600
  let sec := sec - hour * 3600
  let min := sec / 60
  let sec := sec - min * 60
  (hour, min, sec)

/-- The `-0700` layout element: sign, hours and minutes of the zone offset. -/
def appendNumTZ (b : String) (offset : Int) : String :=
  let zone := offset.tdiv 60
  let b1 := if zone < 0 then b ++ "-" else b ++ "+"
  let zone1 := if zone < 0 then -zone else zone
  appendInt (appendInt b1 (zone1.tdiv 60) 2) (zone1.tmod 60) 2

/-- The `MST` layout element: the zone abbreviation if known, else the
numeric offset. -/
def appendTZ (b : String) (name : String) (offset : Int) : String :=
  if name ≠ "" then b ++ name else appendNumTZ b offset

/-- The layout `2006-01-02 15:04:05.999999999 -0700 MST` applied to broken-down
time with zero nanoseconds. -/
def formatLayout (year : Int) (month day hour min sec : Nat) (name : String)
    (offset : Int) : String :=
  let b := appendInt "" year 4
  let b := appendInt (b ++ "-") month 2
  let b := appendInt (b ++ "-") day 2
  let b := appendInt (b ++ " ") hour 2
  let b := appendInt (b ++ ":") min 2
  let b := appendInt (b ++ ":") sec 2
  let b := appendNumTZ (b ++ " ") offset
  appendTZ (b ++ " ") name offset

/-- The string `time.Unix(sec, 0).String()` when the local location is `loc`.
The absolute time is a `uint64`, hence the reduction modulo `2 ^ 64`. -/
def unixString (loc : Location) (sec : Int) : String :=
  let zone := loc.lookup sec
  let abs := ((sec + zone.2 + unixToAbsolute) % (2 ^ 64 : Int)).toNat
  let date := absDate abs
  let clock := absClock abs
  formatLayout date.1 date.2.1 date.2.2 clock.1 clock.2.1 clock.2.2 zone.1 zone.2

/-! ## The transform (function.go, lines 55-117) -/

def toDiscord (loc : Location) (notification : Notification) : DiscordWebhook :=
  let startedAt :=
    if notification.Incident.StartedAt > 0 then
      unixString loc notification.Incident.StartedAt
    else "-"
  let endedAt :=
    if notification.Incident.EndedAt > 0 then
      unixString loc notification.Incident.EndedAt
    else "-"
  let policyName :=
    if notification.Incident.PolicyName = "" then "-"
    else notification.Incident.PolicyName
  let conditionName :=
    if notification.Incident.ConditionName = "" then "-"
    else notification.Incident.ConditionName
  let colour :=
    if notification.Incident.State = "open" then colorRed
    else if notification.Incident.State = "closed" then colorGreen
    else colorGrey
  { Embeds := [
      { Title := notification.Incident.Summary
        URL := notification.Incident.URL
        Description := ""
        Color := colour
        Fields := [
          { Name := "Incident ID", Value := notification.Incident.IncidentID, Inline := false },
          { Name := "Policy", Value := policyName, Inline := true },
          { Name := "Condition", Value := conditionName, Inline := true },
          { Name := "Started At", Value := startedAt, Inline := false },
          { Name := "Ended At", Value := endedAt, Inline := false } ] } ] }

/-- The values of all fields called `name`, over all embeds of a message. -/
def fieldValues (d : DiscordWebhook) (name : String) : List String :=
  ((d.Embeds.map Embed.Fields).flatten.filter (fun f => f.Name = name)).map Field.Value

/-! ## JSON serialization of the outgoing message

`json.Marshal` of a `DiscordWebhook`, after package `encoding/json` (Go 1.22
and later): struct fields in declaration order under their tag names, slices
tagged `omitempty` left out when empty, strings escaped with HTML escaping
on. The value holds only strings, integers, booleans and slices of structs,
so marshalling never returns an error. -/

def quoteChar : Char := Char.ofNat 34

def backslashChar : Char := Char.ofNat 92

/-- The constant `hex` of package `encoding/json`. -/
def hex : String := "0123456789abcdef"

/-- The escape sequence of one character inside a JSON string. -/
def escapeChar (c : Char) : List Char :=
  if c = backslashChar ∨ c = quoteChar then [backslashChar, c]
  else if c = Char.ofNat 8 then [backslashChar, 'b']
  else if c = Char.ofNat 12 then [backslashChar, 'f']
  else if c = Char.ofNat 10 then [backslashChar, 'n']
  else if c = Char.ofNat 13 then [backslashChar, 'r']
  else if c = Char.ofNat 9 then [backslashChar, 't']
  else if c.toNat < 32 ∨ c = '<' ∨ c = '>' ∨ c = '&' then
    [backslashChar, 'u', '0', '0', hex.data.getD (c.toNat / 16) '0',
      hex.data.getD (c.toNat % 16) '0']
  else if c.toNat = 8232 then [backslashChar, 'u', '2', '0', '2', '8']
  else if c.toNat = 8233 then [backslashChar, 'u', '2', '0', '2', '9']
  else [c]

def marshalString (s : String) : String :=
  String.mk ([quoteChar] ++ (s.data.map escapeChar).flatten ++ [quoteChar])

def marshalInt (i : Int) : String :=
  if i < 0 then "-" ++ Nat.repr i.natAbs else Nat.repr i.natAbs

def marshalBool (b : Bool) : String :=
  if b then "true" else "false"

/-- A JSON object member: the quoted key, a colon, the encoded value. -/
def member (key value : String) : String :=
  marshalString key ++ ":" ++ value

/-- A JSON array of already encoded elements. -/
def marshalArray (elems : List String) : String :=
  "[" ++ ",".intercalate elems ++ "]"

/-- A JSON object of already encoded members. -/
def marshalObject (members : List String) : String :=
  "\x7b" ++ ",".intercalate members ++ "\x7d"

def marshalField (f : Field) : String :=
  marshalObject [member "name" (marshalString f.Name), member "value" (marshalString f.Value),
    member "inline" (marshalBool f.Inline)]

def marshalEmbed (e : Embed) : String :=
  marshalObject ([member "title" (marshalString e.Title), member "url" (marshalString e.URL),
    member "description" (marshalString e.Description), member "color" (marshalInt e.Color)]
    ++ (if e.Fields.isEmpty then []
        else [member "fields" (marshalArray (e.Fields.map marshalField))]))

def marshalWebhook (d : DiscordWebhook) : String :=
  marshalObject (if d.Embeds.isEmpty then []
    else [member "embeds" (marshalArray (d.Embeds.map marshalEmbed))])

/-- Go `json.Marshal` at type `DiscordWebhook`: the payload, or an error. -/
def jsonMarshal (d : DiscordWebhook) : Except String String :=
  .ok (marshalWebhook d)

/-! ## The handler (function.go, lines 119-190) -/

/-- The part of Go `http.Client` that the program sets: `Timeout`, a
`time.Duration` in nanoseconds; zero means no timeout. -/
structure Client where
  Timeout : Int
deriving DecidableEq, Repr

/-- Go `time.Second` in nanoseconds. -/
def Second : Int := 1000000000

/-- The package-level `httpClient` of function.go (line 124). -/
def httpClient : Client := { Timeout := 10 * Second }

/-- Go `http.DefaultClient`, the zero `Client`; `http.Post` sends through it. -/
def DefaultClient : Client := { Timeout := 0 }

/-- The package-level configuration read from the environment at start-up
(`AUTH_TOKEN`, `DISCORD_WEBHOOK_URL`; an unset variable reads as `""`). -/
structure Config where
  authToken : String
  discordWebhookURL : String
deriving DecidableEq, Repr

/-- The inbound `*http.Request` as far as `F` looks at it. `Query` is the
parsed query string in order of appearance, `Header` the header lines under
their canonical keys. -/
structure Request where
  Method : String
  Query : List (String × String)
  Header : List (String × String)
  Body : String
deriving DecidableEq, Repr

/-- Go `url.Values.Get` and `http.Header.Get`: the first value stored under
`key`, or `""` when there is none. -/
def getFirst (kvs : List (String × String)) (key : String) : String :=
  match kvs.find? (fun kv => kv.1 = key) with
  | some kv => kv.2
  | none => ""

/-- What `F` writes to the `http.ResponseWriter`. -/
structure Response where
  StatusCode : Nat
  Body : String
deriving DecidableEq, Repr

/-- Go `http.Error`: the status code and the message followed by a newline. -/
def httpError (error : String) (code : Nat) : Response :=
  { StatusCode := code, Body := error ++ "\n" }

/-- One HTTP request that the client puts on the wire: method, URL and body
(`none` when the request has no body). Headers are not part of the model. -/
structure WireRequest where
  Method : String
  URL : String
  Body : Option String
deriving DecidableEq, Repr

/-- The result of one round trip: a transport error (`err != nil`), or a
response with its status code and its `Location` header (`""` when absent). -/
inductive RoundTrip where
  | transportError (err : String)
  | response (StatusCode : Int) (Location : String)
deriving DecidableEq, Repr

/-- One call of `http.Post`: the client it goes through, the URL, content
type and body passed to it, and the requests the client put on the wire for
it, in order. -/
structure OutboundPost where
  client : Client
  url : String
  contentType : String
  body : String
  wire : List WireRequest
deriving DecidableEq, Repr

/-- The surroundings of one invocation of `F`: the local time zone, whether
`url.Parse` accepts a string, what `json.NewDecoder(body).Decode` yields for
a request body at type `Notification` (`none` for an error), the resolution
of a `Location` header against the URL of the request it answers
(`req.URL.Parse(loc)`, `none` for an error), and how the network answers a
request given the requests sent before it in the same call. -/
structure Runtime where
  Local : Location
  urlParse : String → Bool
  jsonDecode : String → Option Notification
  resolve : String → String → Option String
  send : List WireRequest → WireRequest → RoundTrip

/-- Go `http.redirectBehavior` for a request whose body can be sent again
(`GetBody` is set, as `http.NewRequest` does for a `*bytes.Buffer`): `none`
when the response is not a redirect, else the method of the next request
and whether the body goes with it. -/
def redirectBehavior (reqMethod : String) (StatusCode : Int) : Option (String × Bool) :=
  if StatusCode = 301 ∨ StatusCode = 302 ∨ StatusCode = 303 then
    some (if reqMethod ≠ "GET" ∧ reqMethod ≠ "HEAD" then "GET" else reqMethod, false)
  else if StatusCode = 307 ∨ StatusCode = 308 then
    some (reqMethod, true)
  else
    none

/-- The loop of Go `(*http.Client).do` with the default redirect policy:
sends `req` after the requests `via`, and follows redirects. `allowed` is
the number of further requests the default policy still permits (it stops
when 10 requests have been sent). The result is the error or the status code
of the response that `Do` returns, and all requests sent. -/
def clientDo (rt : Runtime) (body : String) :
    Nat → List WireRequest → WireRequest → Except String Int × List WireRequest
  | allowed, via, req =>
    match rt.send via req with
    | .transportError err => (.error err, via ++ [req])
    | .response StatusCode loc =>
      match redirectBehavior req.Method StatusCode with
      | none => (.ok StatusCode, via ++ [req])
      | some (redirectMethod, includeBody) =>
        if loc = "" then (.ok StatusCode, via ++ [req])
        else
          match rt.resolve req.URL loc with
          | none => (.error "failed to parse Location header", via ++ [req])
          | some u =>
            match allowed with
            | 0 => (.error "stopped after 10 redirects", via ++ [req])
            | allowed + 1 =>
              clientDo rt body allowed (via ++ [req])
                ⟨redirectMethod, u, if includeBody then some body else none⟩

/-- Go `http.Post(url, contentType, body)`, that is `DefaultClient.Post`: one
POST followed by the requests that redirects ask for, ten requests at most. -/
def httpPost (rt : Runtime) (url body : String) : Except String Int × List WireRequest :=
  clientDo rt body 9 [] ⟨"POST", url, some body⟩

/-- The observable result of one invocation of `F`: the response written to
the caller, whether the request body was read, and the calls of `http.Post`
made, in order. -/
structure Outcome where
  response : Response
  bodyRead : Bool
  posts : List OutboundPost
deriving DecidableEq, Repr

def F (cfg : Config) (rt : Runtime) (r : Request) : Outcome :=
  if cfg.authToken = "" then
    ⟨httpError "Internal Server Error" 500, false, []⟩
  else if getFirst r.Query "auth_token" ≠ cfg.authToken then
    ⟨httpError "Invalid Request" 400, false, []⟩
  else if cfg.discordWebhookURL = "" then
    ⟨httpError "Internal Server Error" 500, false, []⟩
  else if rt.urlParse cfg.discordWebhookURL = false then
    ⟨httpError "Internal Server Error" 500, false, []⟩
  else if r.Method ≠ "POST" ∨ getFirst r.Header "Content-Type" ≠ "application/json" then
    ⟨httpError "Invalid Request" 400, false, []⟩
  else
    match rt.jsonDecode r.Body with
    | none => ⟨httpError "Bad Request" 400, true, []⟩
    | some notification =>
      let discordWebhook := toDiscord rt.Local notification
      match jsonMarshal discordWebhook with
      | .error _ => ⟨httpError "Internal Server Error" 500, true, []⟩
      | .ok payload =>
        let res := httpPost rt cfg.discordWebhookURL payload
        let post : OutboundPost :=
          ⟨DefaultClient, cfg.discordWebhookURL, "application/json", payload, res.2⟩
        match res.1 with
        | .error _ => ⟨httpError "Internal Server Error" 500, true, [post]⟩
        | .ok StatusCode =>
          if StatusCode < 200 ∨ StatusCode ≥ 300 then
            ⟨httpError "Failed to send to Discord" 502, true, [post]⟩
          else
            ⟨⟨200, "OK"⟩, true, [post]⟩

/-! ## Vocabulary for the statements about `F` -/

/-- All checks of `F` that precede the reading of the body pass: the secret
is configured, the `auth_token` query parameter equals it, the destination
URL is configured and parses, the method is POST and the content type is
`application/json`. -/
def Validated (cfg : Config) (rt : Runtime) (r : Request) : Prop :=
  cfg.authToken ≠ "" ∧ getFirst r.Query "auth_token" = cfg.authToken ∧
  cfg.discordWebhookURL ≠ "" ∧ rt.urlParse cfg.discordWebhookURL = true ∧
  r.Method = "POST" ∧ getFirst r.Header "Content-Type" = "application/json"

/-- The first request of the delivery of a notification: the POST of the
serialized `toDiscord notification` to the configured destination. -/
def firstRequest (cfg : Config) (rt : Runtime) (notification : Notification) : WireRequest :=
  ⟨"POST", cfg.discordWebhookURL, some (marshalWebhook (toDiscord rt.Local notification))⟩

/-- What `http.Post` returns for the delivery of a notification (the error,
or the status code of the response it hands back), and the requests it
sends. -/
def deliveryResult (cfg : Config) (rt : Runtime) (notification : Notification) :
    Except String Int × List WireRequest :=
  httpPost rt cfg.discordWebhookURL (marshalWebhook (toDiscord rt.Local notification))

/-- The call of `http.Post` that `F` makes for a decoded notification. -/
def delivery (cfg : Config) (rt : Runtime) (notification : Notification) : OutboundPost :=
  ⟨DefaultClient, cfg.discordWebhookURL, "application/json",
    marshalWebhook (toDiscord rt.Local notification), (deliveryResult cfg rt notification).2⟩

/-- The status codes on which the client follows a redirect. -/
def isRedirect (StatusCode : Int) : Prop :=
  StatusCode = 301 ∨ StatusCode = 302 ∨ StatusCode = 303 ∨ StatusCode = 307 ∨
    StatusCode = 308

/-! ## Sample inputs -/

def sampleConfig : Config := ⟨"s3cret", "https://discord.example/api/webhooks/1/abc"⟩

/-- The JSON text of a notification for an open incident started at Unix
time 1700000000. -/
def openIncidentBody : String :=
  "\x7b\"incident\":\x7b\"state\":\"open\",\"started_at\":1700000000\x7d\x7d"

/-- What the Go decoder yields for `openIncidentBody`: absent fields are
zero. -/
def openIncident : Notification :=
  ⟨⟨"", "", "", "open", 1700000000, 0, "", "", "", ""⟩, ""⟩

/-- A runtime in UTC in which every URL parses, every `Location` is an
absolute URL, the network answers every request with `answer`, and the
decoder knows two bodies: the empty object (the zero notification) and
`openIncidentBody`. -/
def sampleRuntime (answer : RoundTrip) : Runtime :=
  { Local := Location.utc
    urlParse := fun _ => true
    jsonDecode := fun body =>
      if body = "\x7b\x7d" then some ⟨⟨"", "", "", "", 0, 0, "", "", "", ""⟩, ""⟩
      else if body = openIncidentBody then some openIncident
      else none
    resolve := fun _ loc => some loc
    send := fun _ _ => answer }

def movedURL : String := "https://discord.example/api/webhooks/2/def"

/-- A runtime like `sampleRuntime` in which the destination of
`sampleConfig` answers with status `code` and `Location: movedURL`, and
every other URL answers 200. -/
def redirectRuntime (code : Int) : Runtime :=
  { Local := Location.utc
    urlParse := fun _ => true
    jsonDecode := fun body => if body = openIncidentBody then some openIncident else none
    resolve := fun _ loc => some loc
    send := fun _ req =>
      if req.URL = sampleConfig.discordWebhookURL then .response code movedURL
      else .response 200 "" }

/-- A POST request with content type `application/json`, the given
`auth_token` and the given body. -/
def sampleRequest (token body : String) : Request :=
  ⟨"POST", [("auth_token", token)], [("Content-Type", "application/json")], body⟩

/-! ## Properties of the transform -/

theorem appendInt_length_ge (b : String) (x : Int) (width : Nat) :
    b.length ≤ (appendInt b x width).length := by
  unfold appendInt
  split <;> simp only [String.length_append] <;> omega

theorem appendNumTZ_length_ge (b : String) (offset : Int) :
    b.length ≤ (appendNumTZ b offset).length := by
  unfold appendNumTZ
  refine le_trans ?_ (appendInt_length_ge _ _ _)
  refine le_trans ?_ (appendInt_length_ge _ _ _)
  split <;> simp [String.length_append]

theorem appendTZ_length_ge (b : String) (name : String) (offset : Int) :
    b.length ≤ (appendTZ b name offset).length := by
  unfold appendTZ
  split
  · simp [String.length_append]
  · exact appendNumTZ_length_ge b offset

theorem append_sep_length (b sep : String) (k : Nat) (hb : k ≤ b.length)
    (hs : sep.length = 1) : k + 1 ≤ (b ++ sep).length := by
  rw [String.length_append]
  omega

/-- Every rendering in the layout holds the seven separator characters of
the layout. -/
theorem formatLayout_length (year : Int) (month day hour min sec : Nat) (name : String)
    (offset : Int) : 7 ≤ (formatLayout year month day hour min sec name offset).length := by
  unfold formatLayout
  have h0 := appendInt_length_ge "" year 4
  have h1 := le_trans (append_sep_length _ "-" 0 (Nat.zero_le _) rfl)
    (appendInt_length_ge (appendInt "" year 4 ++ "-") month 2)
  have h2 := le_trans (append_sep_length _ "-" _ h1 rfl) (appendInt_length_ge _ day 2)
  have h3 := le_trans (append_sep_length _ " " _ h2 rfl) (appendInt_length_ge _ hour 2)
  have h4 := le_trans (append_sep_length _ ":" _ h3 rfl) (appendInt_length_ge _ min 2)
  have h5 := le_trans (append_sep_length _ ":" _ h4 rfl) (appendInt_length_ge _ sec 2)
  have h6 := le_trans (append_sep_length _ " " _ h5 rfl) (appendNumTZ_length_ge _ offset)
  exact le_trans (append_sep_length _ " " _ h6 rfl) (appendTZ_length_ge _ name offset)

/-- No rendering of a timestamp is the placeholder `"-"`. -/
theorem unixString_ne_dash (loc : Location) (sec : Int) : unixString loc sec ≠ "-" := by
  intro h
  have hlen := congrArg String.length h
  have h7 := formatLayout_length (absDate ((sec + (loc.lookup sec).2 + unixToAbsolute) %
      (2 ^ 64 : Int)).toNat).1
    (absDate ((sec + (loc.lookup sec).2 + unixToAbsolute) % (2 ^ 64 : Int)).toNat).2.1
    (absDate ((sec + (loc.lookup sec).2 + unixToAbsolute) % (2 ^ 64 : Int)).toNat).2.2
    (absClock ((sec + (loc.lookup sec).2 + unixToAbsolute) % (2 ^ 64 : Int)).toNat).1
    (absClock ((sec + (loc.lookup sec).2 + unixToAbsolute) % (2 ^ 64 : Int)).toNat).2.1
    (absClock ((sec + (loc.lookup sec).2 + unixToAbsolute) % (2 ^ 64 : Int)).toNat).2.2
    (loc.lookup sec).1 (loc.lookup sec).2
  have h1 : ("-" : String).length = 1 := rfl
  unfold unixString at hlen
  simp only [] at hlen
  omega

/-- The rendering agrees with Go on sample instants: a plain date, a leap
day, a zone east of UTC with a name, a zone west of UTC without one. -/
theorem unixString_samples :
    unixString Location.utc 1700000000 = "2023-11-14 22:13:20 +0000 UTC" ∧
    unixString Location.utc 951827696 = "2000-02-29 12:34:56 +0000 UTC" ∧
    unixString ⟨fun _ => ("CET", 3600)⟩ 1700000000 = "2023-11-14 23:13:20 +0100 CET" ∧
    unixString ⟨fun _ => ("", -12600)⟩ 1 = "1969-12-31 20:30:01 -0330 -0330" := by
  refine ⟨by decide, by decide, by decide, by decide⟩

/-- C1: the single embed of `toDiscord n` has colour 15158332 when the state
is exactly "open", 3066993 when it is exactly "closed" and 9807270 for every
other state string (the empty one included); the colour is a function of the
state alone. -/
theorem toDiscord_colour (loc : Location) (n : Notification) :
    (toDiscord loc n).Embeds.map Embed.Color =
      [if n.Incident.State = "open" then 15158332
       else if n.Incident.State = "closed" then 3066993
       else 9807270] := by
  simp [toDiscord, colorRed, colorGreen, colorGrey]

/-- C2: `toDiscord n` has exactly one embed, titled with the incident summary
and linking the incident URL, with exactly the five fields "Incident ID",
"Policy", "Condition", "Started At", "Ended At" in this order, inline flags
false, true, true, false, false, the first value being the incident id. -/
theorem toDiscord_shape (loc : Location) (n : Notification) :
    ∃ e : Embed, (toDiscord loc n).Embeds = [e] ∧
      e.Title = n.Incident.Summary ∧ e.URL = n.Incident.URL ∧
      e.Fields.map Field.Name =
        ["Incident ID", "Policy", "Condition", "Started At", "Ended At"] ∧
      e.Fields.map Field.Inline = [false, true, true, false, false] ∧
      (e.Fields.head?).map Field.Value = some n.Incident.IncidentID := by
  refine ⟨_, rfl, ?_⟩
  simp

/-- C3: the "Started At" value of `toDiscord n` is exactly "-" when
`StartedAt` is zero or negative, and is the rendering of the timestamp, a
string other than "-", when `StartedAt > 0`; likewise for `EndedAt` and the
"Ended At" value. -/
theorem toDiscord_timestamps (loc : Location) (n : Notification) :
    (if 0 < n.Incident.StartedAt then
        fieldValues (toDiscord loc n) "Started At" = [unixString loc n.Incident.StartedAt] ∧
          unixString loc n.Incident.StartedAt ≠ "-"
      else fieldValues (toDiscord loc n) "Started At" = ["-"]) ∧
    (if 0 < n.Incident.EndedAt then
        fieldValues (toDiscord loc n) "Ended At" = [unixString loc n.Incident.EndedAt] ∧
          unixString loc n.Incident.EndedAt ≠ "-"
      else fieldValues (toDiscord loc n) "Ended At" = ["-"]) := by
  constructor
  · split
    · next h => exact ⟨by simp [fieldValues, toDiscord, h], unixString_ne_dash _ _⟩
    · next h => simp [fieldValues, toDiscord, h]
  · split
    · next h => exact ⟨by simp [fieldValues, toDiscord, h], unixString_ne_dash _ _⟩
    · next h => simp [fieldValues, toDiscord, h]

/-- C4: the "Policy" value of `toDiscord n` is the policy name verbatim when
it is non-empty and exactly "-" when it is empty; likewise for the condition
name and the "Condition" value. -/
theorem toDiscord_names (loc : Location) (n : Notification) :
    fieldValues (toDiscord loc n) "Policy" =
      [if n.Incident.PolicyName = "" then "-" else n.Incident.PolicyName] ∧
    fieldValues (toDiscord loc n) "Condition" =
      [if n.Incident.ConditionName = "" then "-" else n.Incident.ConditionName] := by
  simp [fieldValues, toDiscord]

/-! ## Properties of the handler -/

theorem getFirst_of_absent (kvs : List (String × String)) (key : String)
    (h : ∀ v, (key, v) ∉ kvs) : getFirst kvs key = "" := by
  unfold getFirst
  have hnone : kvs.find? (fun kv => kv.1 = key) = none := by
    rw [List.find?_eq_none]
    intro kv hkv hk
    have hk1 : kv.1 = key := by simpa using hk
    exact h kv.2 (by rw [← hk1]; exact hkv)
  rw [hnone]

theorem redirectBehavior_eq_none (reqMethod : String) (StatusCode : Int) :
    redirectBehavior reqMethod StatusCode = none ↔ ¬ isRedirect StatusCode := by
  unfold redirectBehavior isRedirect
  split
  · next h => simp; omega
  · split
    · next h1 h2 => simp; omega
    · next h1 h2 => simp; omega

/-- A transport error ends the call at once. -/
theorem clientDo_of_error (rt : Runtime) (body : String) (allowed : Nat)
    (via : List WireRequest) (req : WireRequest) (err : String)
    (h : rt.send via req = .transportError err) :
    clientDo rt body allowed via req = (.error err, via ++ [req]) := by
  unfold clientDo
  rw [h]

/-- A response that is no redirect, or has no `Location`, is handed back. -/
theorem clientDo_of_final (rt : Runtime) (body : String) (allowed : Nat)
    (via : List WireRequest) (req : WireRequest) (StatusCode : Int) (loc : String)
    (h : rt.send via req = .response StatusCode loc)
    (hf : ¬ isRedirect StatusCode ∨ loc = "") :
    clientDo rt body allowed via req = (.ok StatusCode, via ++ [req]) := by
  unfold clientDo
  rcases hf with hf | hf
  · simp only [h, (redirectBehavior_eq_none req.Method StatusCode).2 hf]
  · subst hf
    simp only [h]
    cases redirectBehavior req.Method StatusCode <;> simp

/-- The client on sample networks: a 302 is followed by a GET without body,
a 308 by a POST with the body, a redirect without `Location` is handed back,
and an endless chain of redirects stops with an error after 10 requests. -/
theorem httpPost_samples :
    httpPost (redirectRuntime 302) sampleConfig.discordWebhookURL "payload" =
      (.ok 200, [⟨"POST", sampleConfig.discordWebhookURL, some "payload"⟩,
        ⟨"GET", movedURL, none⟩]) ∧
    httpPost (redirectRuntime 308) sampleConfig.discordWebhookURL "payload" =
      (.ok 200, [⟨"POST", sampleConfig.discordWebhookURL, some "payload"⟩,
        ⟨"POST", movedURL, some "payload"⟩]) ∧
    httpPost (sampleRuntime (.response 301 "")) sampleConfig.discordWebhookURL "payload" =
      (.ok 301, [⟨"POST", sampleConfig.discordWebhookURL, some "payload"⟩]) ∧
    (httpPost (sampleRuntime (.response 307 movedURL)) sampleConfig.discordWebhookURL
      "payload").1 = .error "stopped after 10 redirects" ∧
    (httpPost (sampleRuntime (.response 307 movedURL)) sampleConfig.discordWebhookURL
      "payload").2.length = 10 := by
  refine ⟨rfl, rfl, rfl, rfl, rfl⟩

/-- After validation and decoding, `F` marshals, calls `http.Post` once and
answers by its result. -/
theorem F_of_validated (cfg : Config) (rt : Runtime) (r : Request) (n : Notification)
    (hv : Validated cfg rt r) (hd : rt.jsonDecode r.Body = some n) :
    F cfg rt r =
      match (deliveryResult cfg rt n).1 with
      | .error _ =>
        ⟨httpError "Internal Server Error" 500, true, [delivery cfg rt n]⟩
      | .ok StatusCode =>
        if StatusCode < 200 ∨ StatusCode ≥ 300 then
          ⟨httpError "Failed to send to Discord" 502, true, [delivery cfg rt n]⟩
        else ⟨⟨200, "OK"⟩, true, [delivery cfg rt n]⟩ := by
  obtain ⟨h1, h2, h3, h4, h5, h6⟩ := hv
  simp only [F, h1, h2, h3, h4, h5, h6, hd, jsonMarshal, delivery, deliveryResult]
  simp

theorem F_of_delivery_error (cfg : Config) (rt : Runtime) (r : Request) (n : Notification)
    (hv : Validated cfg rt r) (hd : rt.jsonDecode r.Body = some n) (err : String)
    (he : (deliveryResult cfg rt n).1 = .error err) :
    F cfg rt r = ⟨httpError "Internal Server Error" 500, true, [delivery cfg rt n]⟩ := by
  rw [F_of_validated cfg rt r n hv hd, he]

theorem F_of_delivery_status (cfg : Config) (rt : Runtime) (r : Request) (n : Notification)
    (hv : Validated cfg rt r) (hd : rt.jsonDecode r.Body = some n) (StatusCode : Int)
    (he : (deliveryResult cfg rt n).1 = .ok StatusCode) :
    F cfg rt r =
      if StatusCode < 200 ∨ StatusCode ≥ 300 then
        ⟨httpError "Failed to send to Discord" 502, true, [delivery cfg rt n]⟩
      else ⟨⟨200, "OK"⟩, true, [delivery cfg rt n]⟩ := by
  rw [F_of_validated cfg rt r n hv hd, he]

theorem deliveryResult_of_error (cfg : Config) (rt : Runtime) (n : Notification)
    (err : String) (h : rt.send [] (firstRequest cfg rt n) = .transportError err) :
    deliveryResult cfg rt n = (.error err, [firstRequest cfg rt n]) :=
  clientDo_of_error rt _ 9 [] _ err h

theorem deliveryResult_of_final (cfg : Config) (rt : Runtime) (n : Notification)
    (StatusCode : Int) (loc : String)
    (h : rt.send [] (firstRequest cfg rt n) = .response StatusCode loc)
    (hf : ¬ isRedirect StatusCode ∨ loc = "") :
    deliveryResult cfg rt n = (.ok StatusCode, [firstRequest cfg rt n]) :=
  clientDo_of_final rt _ 9 [] _ StatusCode loc h hf

/-- When a check fails before the body is read, `F` neither reads the body
nor posts, and answers 400 or 500. -/
theorem F_of_not_validated (cfg : Config) (rt : Runtime) (r : Request)
    (hv : ¬ Validated cfg rt r) :
    (F cfg rt r).bodyRead = false ∧ (F cfg rt r).posts = [] ∧
      ((F cfg rt r).response.StatusCode = 400 ∨ (F cfg rt r).response.StatusCode = 500) := by
  unfold Validated at hv
  unfold F
  split
  · simp [httpError]
  split
  · simp [httpError]
  split
  · simp [httpError]
  split
  · simp [httpError]
  split
  · simp [httpError]
  · next h1 h2 h3 h4 h5 =>
    exfalso
    apply hv
    refine ⟨h1, by simpa using h2, h3, by simpa using h4, ?_, ?_⟩
    · by_contra hm; exact h5 (Or.inl hm)
    · by_contra hc; exact h5 (Or.inr hc)

theorem F_of_undecodable (cfg : Config) (rt : Runtime) (r : Request)
    (hv : Validated cfg rt r) (hd : rt.jsonDecode r.Body = none) :
    F cfg rt r = ⟨httpError "Bad Request" 400, true, []⟩ := by
  obtain ⟨h1, h2, h3, h4, h5, h6⟩ := hv
  simp [F, h1, h2, h3, h4, h5, h6, hd]

/-- C5: with a non-empty configured secret, a request whose `auth_token` is
missing or differs from the secret is answered 400 "Invalid Request" and no
outbound POST is made, whatever its method, content type and body and
whatever the destination configuration. -/
theorem F_rejects_bad_token (cfg : Config) (rt : Runtime) (r : Request)
    (hs : cfg.authToken ≠ "")
    (ht : (∀ v, ("auth_token", v) ∉ r.Query) ∨ getFirst r.Query "auth_token" ≠ cfg.authToken) :
    (F cfg rt r).response = httpError "Invalid Request" 400 ∧
      (F cfg rt r).response.StatusCode = 400 ∧ (F cfg rt r).posts = [] := by
  have hne : getFirst r.Query "auth_token" ≠ cfg.authToken := by
    rcases ht with h | h
    · rw [getFirst_of_absent _ _ h]
      exact fun he => hs he.symm
    · exact h
  simp [F, hs, hne, httpError]

theorem F_rejects_bad_token_witness :
    sampleConfig.authToken ≠ "" ∧
    getFirst (sampleRequest "guess" openIncidentBody).Query "auth_token" ≠
      sampleConfig.authToken ∧
    (F sampleConfig (sampleRuntime (.response 204 ""))
        (sampleRequest "guess" openIncidentBody)).response = httpError "Invalid Request" 400 ∧
    (F sampleConfig (sampleRuntime (.response 204 ""))
        (sampleRequest "guess" openIncidentBody)).response.StatusCode = 400 ∧
    (F sampleConfig (sampleRuntime (.response 204 ""))
        (sampleRequest "guess" openIncidentBody)).posts = [] :=
  ⟨by decide, by decide,
    F_rejects_bad_token sampleConfig (sampleRuntime (.response 204 ""))
      (sampleRequest "guess" openIncidentBody) (by decide) (Or.inr (by decide))⟩

/-- C6 as stated fails: for a request that passes validation and decodes,
a transport error on the outbound POST is answered 500, not 502; and a POST
answered 303 (outside [200,300)) with a `Location` whose target answers 200
is answered 200 "OK", not 502. -/
theorem F_transport_error_not_502 :
    Validated sampleConfig (sampleRuntime (.transportError "connection refused"))
      (sampleRequest "s3cret" openIncidentBody) ∧
    (sampleRuntime (.transportError "connection refused")).jsonDecode
      (sampleRequest "s3cret" openIncidentBody).Body = some openIncident ∧
    (sampleRuntime (.transportError "connection refused")).send []
      (firstRequest sampleConfig (sampleRuntime (.transportError "connection refused"))
        openIncident) = .transportError "connection refused" ∧
    (F sampleConfig (sampleRuntime (.transportError "connection refused"))
      (sampleRequest "s3cret" openIncidentBody)).response =
        httpError "Internal Server Error" 500 ∧
    (F sampleConfig (sampleRuntime (.transportError "connection refused"))
      (sampleRequest "s3cret" openIncidentBody)).response.StatusCode ≠ 502 ∧
    (redirectRuntime 303).send []
      (firstRequest sampleConfig (redirectRuntime 303) openIncident) =
        .response 303 movedURL ∧
    (F sampleConfig (redirectRuntime 303)
      (sampleRequest "s3cret" openIncidentBody)).response = ⟨200, "OK"⟩ := by
  refine ⟨?_, by decide, rfl, by decide, by decide, by decide, by decide⟩
  unfold Validated
  decide

/-- C6 (amended): for a request that passes validation and whose body
decodes, `F` answers 500 "Internal Server Error" when `http.Post` returns an
error, as it does on a transport error of the POST, and 502 "Failed to send
to Discord" when the response `http.Post` returns has a status outside
[200,300); that response is the answer to the POST itself whenever that
answer is not a 301, 302, 303, 307 or 308 or has no `Location`. -/
theorem F_delivery_failure (cfg : Config) (rt : Runtime) (r : Request) (n : Notification)
    (hv : Validated cfg rt r) (hd : rt.jsonDecode r.Body = some n) :
    (∀ err, (deliveryResult cfg rt n).1 = .error err →
      (F cfg rt r).response = httpError "Internal Server Error" 500 ∧
        (F cfg rt r).response.StatusCode = 500) ∧
    (∀ code, (deliveryResult cfg rt n).1 = .ok code → (code < 200 ∨ 300 ≤ code) →
      (F cfg rt r).response = httpError "Failed to send to Discord" 502 ∧
        (F cfg rt r).response.StatusCode = 502) ∧
    (∀ err, rt.send [] (firstRequest cfg rt n) = .transportError err →
      (F cfg rt r).response = httpError "Internal Server Error" 500 ∧
        (F cfg rt r).response.StatusCode = 500) ∧
    (∀ code loc, rt.send [] (firstRequest cfg rt n) = .response code loc →
      (code < 200 ∨ 300 ≤ code) → (¬ isRedirect code ∨ loc = "") →
      (F cfg rt r).response = httpError "Failed to send to Discord" 502 ∧
        (F cfg rt r).response.StatusCode = 502) := by
  have herr : ∀ err, (deliveryResult cfg rt n).1 = .error err →
      (F cfg rt r).response = httpError "Internal Server Error" 500 ∧
        (F cfg rt r).response.StatusCode = 500 := by
    intro err he
    rw [F_of_delivery_error cfg rt r n hv hd err he]
    exact ⟨rfl, rfl⟩
  have hbad : ∀ code, (deliveryResult cfg rt n).1 = .ok code → (code < 200 ∨ 300 ≤ code) →
      (F cfg rt r).response = httpError "Failed to send to Discord" 502 ∧
        (F cfg rt r).response.StatusCode = 502 := by
    intro code he hc
    have hc2 : code < 200 ∨ code ≥ 300 := hc
    rw [F_of_delivery_status cfg rt r n hv hd code he, if_pos hc2]
    exact ⟨rfl, rfl⟩
  refine ⟨herr, hbad, ?_, ?_⟩
  · intro err hs
    exact herr err (by rw [deliveryResult_of_error cfg rt n err hs])
  · intro code loc hs hc hf
    exact hbad code (by rw [deliveryResult_of_final cfg rt n code loc hs hf]) hc

theorem F_delivery_failure_witness :
    ((F sampleConfig (sampleRuntime (.response 307 movedURL))
        (sampleRequest "s3cret" openIncidentBody)).response =
          httpError "Internal Server Error" 500 ∧
      (F sampleConfig (sampleRuntime (.response 307 movedURL))
        (sampleRequest "s3cret" openIncidentBody)).response.StatusCode = 500) ∧
    ((F sampleConfig (sampleRuntime (.response 500 ""))
        (sampleRequest "s3cret" openIncidentBody)).response =
          httpError "Failed to send to Discord" 502 ∧
      (F sampleConfig (sampleRuntime (.response 500 ""))
        (sampleRequest "s3cret" openIncidentBody)).response.StatusCode = 502) ∧
    ((F sampleConfig (sampleRuntime (.transportError "i/o timeout"))
        (sampleRequest "s3cret" openIncidentBody)).response =
          httpError "Internal Server Error" 500 ∧
      (F sampleConfig (sampleRuntime (.transportError "i/o timeout"))
        (sampleRequest "s3cret" openIncidentBody)).response.StatusCode = 500) ∧
    ((F sampleConfig (sampleRuntime (.response 302 ""))
        (sampleRequest "s3cret" openIncidentBody)).response =
          httpError "Failed to send to Discord" 502 ∧
      (F sampleConfig (sampleRuntime (.response 302 ""))
        (sampleRequest "s3cret" openIncidentBody)).response.StatusCode = 502) :=
  ⟨(F_delivery_failure sampleConfig (sampleRuntime (.response 307 movedURL))
      (sampleRequest "s3cret" openIncidentBody) openIncident
      (by unfold Validated; decide) (by decide)).1 "stopped after 10 redirects" rfl,
   (F_delivery_failure sampleConfig (sampleRuntime (.response 500 ""))
      (sampleRequest "s3cret" openIncidentBody) openIncident
      (by unfold Validated; decide) (by decide)).2.1 500 rfl (by decide),
   (F_delivery_failure sampleConfig (sampleRuntime (.transportError "i/o timeout"))
      (sampleRequest "s3cret" openIncidentBody) openIncident
      (by unfold Validated; decide) (by decide)).2.2.1 "i/o timeout" rfl,
   (F_delivery_failure sampleConfig (sampleRuntime (.response 302 ""))
      (sampleRequest "s3cret" openIncidentBody) openIncident
      (by unfold Validated; decide) (by decide)).2.2.2 302 "" rfl (by decide) (Or.inr rfl)⟩

/-- C7 as stated fails: the POST of a request that passes validation and
decodes is answered 302, a status outside [200,300), with a `Location` whose
target answers 200, and `F` answers 200 "OK". -/
theorem F_ok_after_redirect :
    Validated sampleConfig (redirectRuntime 302) (sampleRequest "s3cret" openIncidentBody) ∧
    (redirectRuntime 302).jsonDecode (sampleRequest "s3cret" openIncidentBody).Body =
      some openIncident ∧
    (redirectRuntime 302).send []
      (firstRequest sampleConfig (redirectRuntime 302) openIncident) =
        .response 302 movedURL ∧
    ¬ ((200 : Int) ≤ 302 ∧ (302 : Int) < 300) ∧
    (F sampleConfig (redirectRuntime 302)
      (sampleRequest "s3cret" openIncidentBody)).response = ⟨200, "OK"⟩ := by
  refine ⟨?_, by decide, by decide, by decide, by decide⟩
  unfold Validated
  decide

/-- C7 (amended): `F` answers 200 "OK" exactly when the secret is
configured, the `auth_token` matches it, the destination URL is configured
and parses, the method is POST, the content type is `application/json`, the
body decodes and `http.Post` returns a response with a status in [200,300);
that response is the answer to the POST itself whenever that answer is not a
301, 302, 303, 307 or 308 or has no `Location`, in particular whenever it is
in [200,300). Every other response of `F` has status 400, 500 or 502. -/
theorem F_ok_iff (cfg : Config) (rt : Runtime) (r : Request) :
    ((F cfg rt r).response = ⟨200, "OK"⟩ ↔
      (cfg.authToken ≠ "" ∧ getFirst r.Query "auth_token" = cfg.authToken ∧
        cfg.discordWebhookURL ≠ "" ∧ rt.urlParse cfg.discordWebhookURL = true ∧
        r.Method = "POST" ∧ getFirst r.Header "Content-Type" = "application/json") ∧
      ∃ n, rt.jsonDecode r.Body = some n ∧
        ∃ code, (deliveryResult cfg rt n).1 = .ok code ∧ 200 ≤ code ∧ code < 300) ∧
    (∀ n code loc, Validated cfg rt r → rt.jsonDecode r.Body = some n →
      rt.send [] (firstRequest cfg rt n) = .response code loc →
      200 ≤ code → code < 300 → (F cfg rt r).response = ⟨200, "OK"⟩) ∧
    (∀ n code loc, Validated cfg rt r → rt.jsonDecode r.Body = some n →
      rt.send [] (firstRequest cfg rt n) = .response code loc →
      (¬ isRedirect code ∨ loc = "") →
      ((F cfg rt r).response = ⟨200, "OK"⟩ ↔ 200 ≤ code ∧ code < 300)) ∧
    ((F cfg rt r).response = ⟨200, "OK"⟩ ∨ (F cfg rt r).response.StatusCode = 400 ∨
      (F cfg rt r).response.StatusCode = 500 ∨ (F cfg rt r).response.StatusCode = 502) := by
  have hfinal : ∀ n code loc, Validated cfg rt r → rt.jsonDecode r.Body = some n →
      rt.send [] (firstRequest cfg rt n) = .response code loc →
      (¬ isRedirect code ∨ loc = "") →
      ((F cfg rt r).response = ⟨200, "OK"⟩ ↔ 200 ≤ code ∧ code < 300) := by
    intro n code loc hv hd hs hf
    have he : (deliveryResult cfg rt n).1 = .ok code := by
      rw [deliveryResult_of_final cfg rt n code loc hs hf]
    rw [F_of_delivery_status cfg rt r n hv hd code he]
    by_cases hc : code < 200 ∨ code ≥ 300
    · rw [if_pos hc]
      constructor
      · intro h
        simp [httpError] at h
      · intro h
        omega
    · rw [if_neg hc]
      exact ⟨fun _ => by omega, fun _ => rfl⟩
  refine ⟨?_, ?_, hfinal, ?_⟩
  · change ((F cfg rt r).response = ⟨200, "OK"⟩ ↔ Validated cfg rt r ∧ _)
    by_cases hv : Validated cfg rt r
    · cases hd : rt.jsonDecode r.Body with
      | none =>
        rw [F_of_undecodable cfg rt r hv hd]
        simp [httpError]
      | some n =>
        cases he : (deliveryResult cfg rt n).1 with
        | error err =>
          rw [F_of_delivery_error cfg rt r n hv hd err he]
          constructor
          · intro h
            simp [httpError] at h
          · intro h
            obtain ⟨-, m, hm, code, hcode, -⟩ := h
            cases hm
            rw [he] at hcode
            cases hcode
        | ok code =>
          rw [F_of_delivery_status cfg rt r n hv hd code he]
          by_cases hc : code < 200 ∨ code ≥ 300
          · rw [if_pos hc]
            constructor
            · intro h
              simp [httpError] at h
            · intro h
              obtain ⟨-, m, hm, code2, hcode, h200, h300⟩ := h
              cases hm
              rw [he] at hcode
              cases hcode
              omega
          · rw [if_neg hc]
            exact ⟨fun _ => ⟨hv, n, rfl, code, he, by omega, by omega⟩, fun _ => rfl⟩
    · obtain ⟨-, -, hstat⟩ := F_of_not_validated cfg rt r hv
      constructor
      · intro h
        rw [h] at hstat
        simp at hstat
      · intro h
        exact absurd h.1 hv
  · intro n code loc hv hd hs h200 h300
    have hnr : ¬ isRedirect code := by
      unfold isRedirect
      omega
    exact (hfinal n code loc hv hd hs (Or.inl hnr)).2 ⟨h200, h300⟩
  · by_cases hv : Validated cfg rt r
    · cases hd : rt.jsonDecode r.Body with
      | none =>
        rw [F_of_undecodable cfg rt r hv hd]
        exact Or.inr (Or.inl rfl)
      | some n =>
        cases he : (deliveryResult cfg rt n).1 with
        | error err =>
          rw [F_of_delivery_error cfg rt r n hv hd err he]
          exact Or.inr (Or.inr (Or.inl rfl))
        | ok code =>
          rw [F_of_delivery_status cfg rt r n hv hd code he]
          by_cases hc : code < 200 ∨ code ≥ 300
          · rw [if_pos hc]
            exact Or.inr (Or.inr (Or.inr rfl))
          · rw [if_neg hc]
            exact Or.inl rfl
    · obtain ⟨-, -, hstat⟩ := F_of_not_validated cfg rt r hv
      rcases hstat with h | h
      · exact Or.inr (Or.inl h)
      · exact Or.inr (Or.inr (Or.inl h))

theorem F_ok_iff_witness :
    (F sampleConfig (sampleRuntime (.response 204 ""))
      (sampleRequest "s3cret" openIncidentBody)).response = ⟨200, "OK"⟩ ∧
    ((F sampleConfig (sampleRuntime (.response 404 ""))
      (sampleRequest "s3cret" openIncidentBody)).response = ⟨200, "OK"⟩ ↔
        (200 : Int) ≤ 404 ∧ (404 : Int) < 300) :=
  ⟨(F_ok_iff sampleConfig (sampleRuntime (.response 204 ""))
      (sampleRequest "s3cret" openIncidentBody)).2.1 openIncident 204 ""
      (by unfold Validated; decide) (by decide) rfl (by decide) (by decide),
   (F_ok_iff sampleConfig (sampleRuntime (.response 404 ""))
      (sampleRequest "s3cret" openIncidentBody)).2.2.1 openIncident 404 ""
      (by unfold Validated; decide) (by decide) rfl (Or.inr rfl)⟩

/-- C8: before delivery the response of `F` is that of the first failing
check, in this order: empty secret, 500 "Internal Server Error"; `auth_token`
different from the secret, 400 "Invalid Request"; destination URL empty or
not parseable, 500 "Internal Server Error"; method not POST or content type
not exactly `application/json`, 400 "Invalid Request"; undecodable body, 400
"Bad Request". The body is read exactly when the first four checks pass. -/
theorem F_validation_order (cfg : Config) (rt : Runtime) (r : Request) :
    (cfg.authToken = "" →
      F cfg rt r = ⟨httpError "Internal Server Error" 500, false, []⟩) ∧
    (cfg.authToken ≠ "" → getFirst r.Query "auth_token" ≠ cfg.authToken →
      F cfg rt r = ⟨httpError "Invalid Request" 400, false, []⟩) ∧
    (cfg.authToken ≠ "" → getFirst r.Query "auth_token" = cfg.authToken →
      (cfg.discordWebhookURL = "" ∨ rt.urlParse cfg.discordWebhookURL = false) →
      F cfg rt r = ⟨httpError "Internal Server Error" 500, false, []⟩) ∧
    (cfg.authToken ≠ "" → getFirst r.Query "auth_token" = cfg.authToken →
      cfg.discordWebhookURL ≠ "" → rt.urlParse cfg.discordWebhookURL = true →
      (r.Method ≠ "POST" ∨ getFirst r.Header "Content-Type" ≠ "application/json") →
      F cfg rt r = ⟨httpError "Invalid Request" 400, false, []⟩) ∧
    (cfg.authToken ≠ "" → getFirst r.Query "auth_token" = cfg.authToken →
      cfg.discordWebhookURL ≠ "" → rt.urlParse cfg.discordWebhookURL = true →
      r.Method = "POST" → getFirst r.Header "Content-Type" = "application/json" →
      rt.jsonDecode r.Body = none →
      F cfg rt r = ⟨httpError "Bad Request" 400, true, []⟩) ∧
    ((F cfg rt r).bodyRead = true ↔
      cfg.authToken ≠ "" ∧ getFirst r.Query "auth_token" = cfg.authToken ∧
      cfg.discordWebhookURL ≠ "" ∧ rt.urlParse cfg.discordWebhookURL = true ∧
      r.Method = "POST" ∧ getFirst r.Header "Content-Type" = "application/json") := by
  refine ⟨?_, ?_, ?_, ?_, ?_, ?_⟩
  · intro h1
    simp [F, h1]
  · intro h1 h2
    simp [F, h1, h2]
  · intro h1 h2 h3
    rcases h3 with h3 | h3
    · simp [F, h1, h2, h3]
    · by_cases h3a : cfg.discordWebhookURL = ""
      · simp [F, h1, h2, h3a]
      · simp [F, h1, h2, h3a, h3]
  · intro h1 h2 h3 h4 h5
    simp only [F, h1, h2, h3, h4, h5]
    simp
  · intro h1 h2 h3 h4 h5 h6 h7
    exact F_of_undecodable cfg rt r ⟨h1, h2, h3, h4, h5, h6⟩ h7
  · change _ ↔ Validated cfg rt r
    by_cases hv : Validated cfg rt r
    · cases hd : rt.jsonDecode r.Body with
      | none =>
        rw [F_of_undecodable cfg rt r hv hd]
        simp [hv]
      | some n =>
        have hF := F_of_validated cfg rt r n hv (hd ▸ rfl)
        have hb : (F cfg rt r).bodyRead = true := by
          rw [hF]
          split
          · rfl
          · split <;> rfl
        simp [hb, hv]
    · have hb := (F_of_not_validated cfg rt r hv).1
      simp [hb, hv]

theorem F_validation_order_witness :
    F ⟨"", "https://discord.example/api/webhooks/1/abc"⟩ (sampleRuntime (.response 204 ""))
        ⟨"POST", [], [("Content-Type", "application/json")], openIncidentBody⟩ =
      ⟨httpError "Internal Server Error" 500, false, []⟩ ∧
    F sampleConfig (sampleRuntime (.response 204 "")) (sampleRequest "guess" openIncidentBody) =
      ⟨httpError "Invalid Request" 400, false, []⟩ ∧
    F ⟨"s3cret", ""⟩ (sampleRuntime (.response 204 ""))
        (sampleRequest "s3cret" openIncidentBody) =
      ⟨httpError "Internal Server Error" 500, false, []⟩ ∧
    F sampleConfig (sampleRuntime (.response 204 ""))
        ⟨"GET", [("auth_token", "s3cret")], [("Content-Type", "application/json")],
          openIncidentBody⟩ =
      ⟨httpError "Invalid Request" 400, false, []⟩ ∧
    F sampleConfig (sampleRuntime (.response 204 "")) (sampleRequest "s3cret" "not json") =
      ⟨httpError "Bad Request" 400, true, []⟩ :=
  ⟨(F_validation_order ⟨"", "https://discord.example/api/webhooks/1/abc"⟩
      (sampleRuntime (.response 204 ""))
      ⟨"POST", [], [("Content-Type", "application/json")], openIncidentBody⟩).1 (by decide),
   (F_validation_order sampleConfig (sampleRuntime (.response 204 ""))
      (sampleRequest "guess" openIncidentBody)).2.1 (by decide) (by decide),
   (F_validation_order ⟨"s3cret", ""⟩ (sampleRuntime (.response 204 ""))
      (sampleRequest "s3cret" openIncidentBody)).2.2.1 (by decide) (by decide)
      (Or.inl (by decide)),
   (F_validation_order sampleConfig (sampleRuntime (.response 204 ""))
      ⟨"GET", [("auth_token", "s3cret")], [("Content-Type", "application/json")],
        openIncidentBody⟩).2.2.2.1 (by decide) (by decide) (by decide) rfl
      (Or.inl (by decide)),
   (F_validation_order sampleConfig (sampleRuntime (.response 204 ""))
      (sampleRequest "s3cret" "not json")).2.2.2.2.1 (by decide) (by decide) (by decide) rfl
      (by decide) (by decide) (by decide)⟩

/-- C10 fails on the code: on a request that passes validation with a
decodable body, `F` answers 200 "OK" after one POST sent through
`http.DefaultClient`, whose timeout is zero (none), and not through
`httpClient`, whose timeout is 10 seconds. -/
theorem F_post_has_no_timeout :
    (F sampleConfig (sampleRuntime (.response 204 ""))
      (sampleRequest "s3cret" openIncidentBody)).response = ⟨200, "OK"⟩ ∧
    (F sampleConfig (sampleRuntime (.response 204 ""))
      (sampleRequest "s3cret" openIncidentBody)).posts.map OutboundPost.client =
        [DefaultClient] ∧
    DefaultClient.Timeout = 0 ∧ httpClient.Timeout = 10000000000 ∧
    httpClient ∉ (F sampleConfig (sampleRuntime (.response 204 ""))
      (sampleRequest "s3cret" openIncidentBody)).posts.map OutboundPost.client := by
  refine ⟨by decide, by decide, rfl, by decide, by decide⟩


end GcpToDiscord
